import Mathlib

/-
  Verification of the pycrofluidics instrument-control layer.

  Shallow embedding of the Python sources:
    src/pycrofluidics/common.py     (error signaling)
    src/pycrofluidics/elveob.py     (Pelve pressure-controller session)
    src/pycrofluidics/elvemux.py    (MUXelve valve controller)
    src/pycrofluidics/protocols.py  (sweep / acquisition / injection loops)

  Conventions of the embedding:
  * Python exceptions are modelled by the inductive PyError below, classified
    according to the taxonomy of the specification (section 7): ConnectionError
    raised by raiseEFerror becomes deviceError; ValueError about remote-mode
    state becomes invalidState; ValueError about missing PID configuration
    becomes configError; range/length ValueError becomes validationError.
  * Machine floats are modelled as exact rationals; the claims proved here are
    about control flow, state and value identity, never float rounding.
  * Each driver (DLL) invocation made by an operation is recorded in a trace
    list, so that statements of the form "fails before any driver call" are
    expressed as the trace being empty.
  * Every operation takes the integer status codes the driver would return as
    explicit arguments; 0 means success, any other value is a device fault.
  * Python object-attribute mutation persists even when the method then raises,
    so operations return both the post-call state and an Except result.
-/

namespace Pycrofluidics

/-- Python exception taxonomy (specification section 7). -/
inductive PyError where
  | deviceError (msg : String)
  | invalidState (msg : String)
  | configError (msg : String)
  | validationError (msg : String)
  | typeError (msg : String)
  | indexError
  | attributeError (name : String)
  | unboundLocalError (name : String)
deriving DecidableEq

/-- One call into the vendor driver DLL (the opaque Driver Capability). -/
inductive DriverCall where
  | obInit
  | obDestructor
  | setPress
  | getPress
  | setAllPress
  | addSens
  | getSensData
  | obCalib
  | startRemoteMeas
  | stopRemoteMeas
  | getRemoteData
  | setRemoteTarget
  | pidAddRemote
  | pidSetRunning
  | pidSetParams
  | muxSetValve
deriving DecidableEq

/-- The fixed code-to-message table ERRORCODES of common.py, keyed by the
absolute value of the driver status code. -/
def ERRORCODES : List (Nat × String) :=
  [ (8000, "No Digital Sensor found")
  , (8001, "No pressure sensor compatible with OB1 MK3")
  , (8002, "No Digital pressure sensor compatible with OB1 MK3")
  , (8003, "No Digital Flow sensor compatible with OB1 MK3")
  , (8004, "No IPA config for this sensor")
  , (8005, "Sensor not compatible with AF1")
  , (8006, "No Instrument with selected ID")
  , (8007, "ESI software seems to have connection with Device, close ESI before continuing in Python")
  , (2, "Unknown error from stopping remote mode")
  ]

/-- common.raiseEFerror: status 0 is success; a non-zero status raises a
ConnectionError (modelled as deviceError) whose message carries the action
description, the raw code, and the table reason when the absolute value of the
code is a known key, otherwise a generic unspecified reason. -/
def raiseEFerror (error : Int) (action : String) : Except PyError Unit :=
  if error = 0 then .ok ()
  else
    match ERRORCODES.lookup error.natAbs with
    | some reason =>
        .error (.deviceError
          (action ++ " failed with errorcode " ++ toString error ++ " : " ++ reason))
    | none =>
        .error (.deviceError
          (action ++ " failed with errorcode " ++ toString error ++ " (not specified further)"))

/-- `strContains s sub` : the character sequence of `sub` occurs contiguously
inside the character sequence of `s`. -/
def strContains (s sub : String) : Prop :=
  ∃ a b, s.data = a ++ sub.data ++ b

theorem data_append_eq (s t : String) : (s ++ t).data = s.data ++ t.data := by
  cases s; cases t; rfl

theorem strContains_head (x y : String) : strContains (x ++ y) x :=
  ⟨[], y.data, by rw [data_append_eq]; simp⟩

theorem strContains_append_left (x y sub : String) (h : strContains x sub) :
    strContains (x ++ y) sub := by
  obtain ⟨a, b, hab⟩ := h
  exact ⟨a, b ++ y.data, by rw [data_append_eq, hab]; simp⟩

theorem strContains_append_right (x y sub : String) (h : strContains y sub) :
    strContains (x ++ y) sub := by
  obtain ⟨a, b, hab⟩ := h
  exact ⟨x.data ++ a, b, by rw [data_append_eq, hab]; simp⟩

theorem strContains_refl (x : String) : strContains x x :=
  ⟨[], [], by simp⟩

/-! ## Pelve: the pressure-controller session (elveob.py) -/

/-- A per-channel PID configuration, the dict stored in confPIDs. -/
structure PIDConf where
  P : ℚ
  I : ℚ
deriving DecidableEq

/-- The mutable Python attributes of a Pelve object that the claims depend on.
confPIDs entries model the Python list entries: none is the literal False
(no PID configured), some c is the stored gains dict. -/
structure PState where
  insideRemote : Bool
  confPIDs : List (Option PIDConf)
  runningPIDs : List Bool
  calib : Option (List ℚ)
deriving DecidableEq

/-- Pelve state right after construction: remote off, four empty PID slots,
no calibration table loaded yet. -/
def pinit : PState :=
  { insideRemote := false
  , confPIDs := [none, none, none, none]
  , runningPIDs := [false, false, false, false]
  , calib := none }

deriving instance DecidableEq for Except

/-- Result of one Pelve method call: the driver calls it made, the state of the
object afterwards (mutations persist even when the method raises), and the
returned value or the exception raised. -/
structure OpRes (α : Type) where
  trace : List DriverCall
  state : PState
  out : Except PyError α
deriving DecidableEq

/-- Pelve._channelCheck: a channel number must lie in 1..4. -/
def channelCheck (channel : Int) : Except PyError Int :=
  if 1 ≤ channel ∧ channel ≤ 4 then .ok channel
  else .error (.validationError "Channel choice between 1 and 4")

/-- Pelve.setPressure. Remote-mode gate first, then channel validation, then
the driver call (which reads self.calib, an AttributeError when absent). -/
def setPressure (s : PState) (channel : Int) (pressure : ℚ) (status : Int) : OpRes Unit :=
  if s.insideRemote then
    ⟨[], s, .error (.invalidState "Remote loop is running; only inside loop functions allowed!")⟩
  else
    match channelCheck channel with
    | .error e => ⟨[], s, .error e⟩
    | .ok _ =>
      match s.calib with
      | none => ⟨[], s, .error (.attributeError "calib")⟩
      | some _ => ⟨[.setPress], s, raiseEFerror status "Setting pressure"⟩

/-- Pelve.getPressure. `reading` is the value the driver writes into the
by-reference output argument. -/
def getPressure (s : PState) (channel : Int) (status : Int) (reading : ℚ) : OpRes ℚ :=
  if s.insideRemote then
    ⟨[], s, .error (.invalidState "Remote loop is running; only inside loop functions allowed!")⟩
  else
    match channelCheck channel with
    | .error e => ⟨[], s, .error e⟩
    | .ok _ =>
      match s.calib with
      | none => ⟨[], s, .error (.attributeError "calib")⟩
      | some _ =>
        match raiseEFerror status "Getting pressure" with
        | .error e => ⟨[.getPress], s, .error e⟩
        | .ok _ => ⟨[.getPress], s, .ok reading⟩

/-- Pelve.getSensorData. -/
def getSensorData (s : PState) (channel : Int) (status : Int) (reading : ℚ) : OpRes ℚ :=
  if s.insideRemote then
    ⟨[], s, .error (.invalidState "Remote loop is running; only inside loop functions allowed!")⟩
  else
    match channelCheck channel with
    | .error e => ⟨[], s, .error e⟩
    | .ok _ =>
      match raiseEFerror status "Getting sensor data" with
      | .error e => ⟨[.getSensData], s, .error e⟩
      | .ok _ => ⟨[.getSensData], s, .ok reading⟩

/-- Pelve.setPressureBulk. -/
def setPressureBulk (s : PState) (pressures : List ℚ) (status : Int) : OpRes Unit :=
  if s.insideRemote then
    ⟨[], s, .error (.invalidState "Remote loop is running; only inside loop functions allowed!")⟩
  else if pressures.length ≠ 4 then
    ⟨[], s, .error (.validationError "Exactly 4 Pressures need to be given here")⟩
  else
    match s.calib with
    | none => ⟨[], s, .error (.attributeError "calib")⟩
    | some _ => ⟨[.setAllPress], s, raiseEFerror status "Setting pressure"⟩

/-- Pelve.addSensor. -/
def addSensor (s : PState) (channel sensorType resolution : Int) (status : Int) : OpRes Unit :=
  if s.insideRemote then
    ⟨[], s, .error (.invalidState "Remote loop is running; only inside loop functions allowed!")⟩
  else
    match channelCheck channel with
    | .error e => ⟨[], s, .error e⟩
    | .ok _ =>
      if ¬ (0 ≤ sensorType ∧ sensorType ≤ 14) then
        ⟨[], s, .error (.validationError "Sensor type between 0 and 14, see above for list.")⟩
      else if ¬ (0 ≤ resolution ∧ resolution ≤ 7) then
        ⟨[], s, .error (.validationError "Sensor resolution between 0 and 7, see above for list.")⟩
      else ⟨[.addSens], s, raiseEFerror status "Connecting to sensor"⟩

/-- elveob.loadCalibration (module level): parse the stored JSON list and
reject any length other than 1000. The persisted file is modelled by its
parsed numeric content; Python json round-trips the float values exactly. -/
def loadCalibrationFile (content : List ℚ) : Except PyError (List ℚ) :=
  if content.length ≠ 1000 then
    .error (.validationError
      ("Calibrationdata in file is misformed: should be list of 1000 elements, not "
        ++ toString content.length ++ " elements"))
  else .ok content

/-- elveob.saveCalibration (module level): serialise the table as a JSON list,
modelled by its parsed numeric content. -/
def saveCalibration (calibrationData : List ℚ) : List ℚ :=
  calibrationData

/-- Pelve.loadCallibration with a caller-supplied path: checks the file
exists, then loads it and replaces self.calib. Note the source performs no
remote-mode check here. -/
def loadCallibration (s : PState) (pathExists : Bool) (content : List ℚ) : OpRes Unit :=
  if ¬ pathExists then
    ⟨[], s, .error (.validationError "No callibration file found at given path, please set different path or perform callibration using Pelve.performCallibration()")⟩
  else
    match loadCalibrationFile content with
    | .error e => ⟨[], s, .error e⟩
    | .ok c => ⟨[], { s with calib := some c }, .ok ()⟩

/-- Pelve.performCallibration: remote-mode gate, then the driver calibration
run. The source assigns the (driver-filled) buffer to self.calib before the
status check, so the state change persists even on a driver fault; `filled`
is the buffer content after the driver call. -/
def performCallibration (s : PState) (filled : List ℚ) (status : Int) : OpRes Unit :=
  if s.insideRemote then
    ⟨[], s, .error (.invalidState "Remote loop is running; only inside loop functions allowed!")⟩
  else
    ⟨[.obCalib], { s with calib := some filled }, raiseEFerror status "Performing callibration"⟩

/-- Pelve.startRemote. -/
def startRemote (s : PState) (status : Int) : OpRes Unit :=
  if s.insideRemote then
    ⟨[], s, .error (.invalidState "Remote loop is allready running and can thus not be started")⟩
  else
    match s.calib with
    | none => ⟨[], s, .error (.attributeError "calib")⟩
    | some _ =>
      match raiseEFerror status "Starting control loop" with
      | .error e => ⟨[.startRemoteMeas], s, .error e⟩
      | .ok _ => ⟨[.startRemoteMeas], { s with insideRemote := true }, .ok ()⟩

/-- Pelve.stopRemote: on driver success clears the remote flag and resets all
PID slots; on a driver fault it raises before any of those resets. -/
def stopRemote (s : PState) (status : Int) : OpRes Unit :=
  if ¬ s.insideRemote then
    ⟨[], s, .error (.invalidState "Remote loop is not running and can thus not be stopped")⟩
  else
    match raiseEFerror status "Stopping control loop" with
    | .error e => ⟨[.stopRemoteMeas], s, .error e⟩
    | .ok _ =>
      ⟨[.stopRemoteMeas],
        { s with insideRemote := false
               , confPIDs := [none, none, none, none]
               , runningPIDs := [false, false, false, false] }, .ok ()⟩

/-- Pelve.close: when remote is on it first attempts stopRemote, catching a
ConnectionError (report, do not raise) and proceeding regardless; then the
driver handle is destroyed, and a non-zero destruction status raises. -/
def close (s : PState) (stopStatus destroyStatus : Int) : OpRes Unit :=
  if s.insideRemote then
    let r := stopRemote s stopStatus
    ⟨r.trace ++ [.obDestructor], r.state, raiseEFerror destroyStatus "Closing connection to OB1"⟩
  else
    ⟨[.obDestructor], s, raiseEFerror destroyStatus "Closing connection to OB1"⟩

/-- Pelve.remoteGetData. -/
def remoteGetData (s : PState) (channel : Int) (status : Int) (pReading sReading : ℚ) :
    OpRes (ℚ × ℚ) :=
  if ¬ s.insideRemote then
    ⟨[], s, .error (.invalidState "Remote loop is not running, use regular getPressure/getSensorData functions")⟩
  else
    match channelCheck channel with
    | .error e => ⟨[], s, .error e⟩
    | .ok _ =>
      match raiseEFerror status "Getting data inside control loop" with
      | .error e => ⟨[.getRemoteData], s, .error e⟩
      | .ok _ => ⟨[.getRemoteData], s, .ok (pReading, sReading)⟩

/-- Pelve.remoteSetTarget. -/
def remoteSetTarget (s : PState) (channel : Int) (target : ℚ) (status : Int) : OpRes Unit :=
  if ¬ s.insideRemote then
    ⟨[], s, .error (.invalidState "Remote loop is not running, start it firts to use PID-like processes.")⟩
  else
    match channelCheck channel with
    | .error e => ⟨[], s, .error e⟩
    | .ok _ =>
      ⟨[.setRemoteTarget], s, raiseEFerror status "Set target pressure/flow rate inside control loop"⟩

/-- Pelve.remoteAddPID: remote gate, both channels validated, the driver bind
call, then the Python list assignments confPIDs[channelP] and
runningPIDs[channelP] — raw channel-number indexing into the 4-element lists,
an IndexError when the index is not below the list length. -/
def remoteAddPID (s : PState) (channelP channelS : Int) (P I : ℚ) (run : Bool) (status : Int) :
    OpRes Unit :=
  if ¬ s.insideRemote then
    ⟨[], s, .error (.invalidState "PID can only be setup if remote loop is running")⟩
  else
    match channelCheck channelP with
    | .error e => ⟨[], s, .error e⟩
    | .ok _ =>
      match channelCheck channelS with
      | .error e => ⟨[], s, .error e⟩
      | .ok _ =>
        match raiseEFerror status "Setup PID control loop" with
        | .error e => ⟨[.pidAddRemote], s, .error e⟩
        | .ok _ =>
          if channelP.toNat < s.confPIDs.length then
            let s1 := { s with confPIDs := s.confPIDs.set channelP.toNat (some ⟨P, I⟩) }
            if channelP.toNat < s1.runningPIDs.length then
              ⟨[.pidAddRemote],
                { s1 with runningPIDs := s1.runningPIDs.set channelP.toNat run }, .ok ()⟩
            else ⟨[.pidAddRemote], s1, .error .indexError⟩
          else ⟨[.pidAddRemote], s, .error .indexError⟩

/-- Pelve._remoteStartstopPID: no remote-mode gate; channel validation, the
confPIDs[channel] lookup (IndexError past the end, ConfigError when the slot
holds no dict), the driver call, then the runningPIDs[channel] assignment.
The driver status is handed back to the caller unchecked. -/
def remoteStartstopPID (s : PState) (channel : Int) (run : Bool) (status : Int) : OpRes Int :=
  match channelCheck channel with
  | .error e => ⟨[], s, .error e⟩
  | .ok _ =>
    match s.confPIDs.get? channel.toNat with
    | none => ⟨[], s, .error .indexError⟩
    | some none => ⟨[], s, .error (.configError "No PID setup in this channel")⟩
    | some (some _) =>
      if channel.toNat < s.runningPIDs.length then
        ⟨[.pidSetRunning],
          { s with runningPIDs := s.runningPIDs.set channel.toNat run }, .ok status⟩
      else ⟨[.pidSetRunning], s, .error .indexError⟩

/-- Pelve.remotePausePID. -/
def remotePausePID (s : PState) (channel : Int) (status : Int) : OpRes Unit :=
  match remoteStartstopPID s channel false status with
  | ⟨t, s1, .error e⟩ => ⟨t, s1, .error e⟩
  | ⟨t, s1, .ok st⟩ => ⟨t, s1, raiseEFerror st "Pausing PID control loop"⟩

/-- Pelve.remoteStartPID. -/
def remoteStartPID (s : PState) (channel : Int) (status : Int) : OpRes Unit :=
  match remoteStartstopPID s channel true status with
  | ⟨t, s1, .error e⟩ => ⟨t, s1, .error e⟩
  | ⟨t, s1, .ok st⟩ => ⟨t, s1, raiseEFerror st "Unpausing PID control loop"⟩

/-- Pelve.remoteResetPID: no remote-mode gate; channel validation, the
confPIDs[channel] lookup, then a parameter re-submission with the reset flag.
Neither Configuration nor Running is changed. -/
def remoteResetPID (s : PState) (channel : Int) (status : Int) : OpRes Unit :=
  match channelCheck channel with
  | .error e => ⟨[], s, .error e⟩
  | .ok _ =>
    match s.confPIDs.get? channel.toNat with
    | none => ⟨[], s, .error .indexError⟩
    | some none => ⟨[], s, .error (.configError "No PID setup in this channel")⟩
    | some (some _) => ⟨[.pidSetParams], s, raiseEFerror status "Reset PID control loop"⟩

/-- Pelve.remoteChangePID: no remote-mode gate; channel validation, the
confPIDs[channel] lookup, the driver call, then the stored gains are updated. -/
def remoteChangePID (s : PState) (channel : Int) (P I : ℚ) (status : Int) : OpRes Unit :=
  match channelCheck channel with
  | .error e => ⟨[], s, .error e⟩
  | .ok _ =>
    match s.confPIDs.get? channel.toNat with
    | none => ⟨[], s, .error .indexError⟩
    | some none => ⟨[], s, .error (.configError "No PID setup in this channel")⟩
    | some (some _) =>
      match raiseEFerror status "Changing PID control loop parameters" with
      | .error e => ⟨[.pidSetParams], s, .error e⟩
      | .ok _ =>
        ⟨[.pidSetParams],
          { s with confPIDs := s.confPIDs.set channel.toNat (some ⟨P, I⟩) }, .ok ()⟩

/-! ## Reachable Pelve states and the PID-slot invariant -/

/-- The Pelve states reachable from a fresh object by any sequence of method
calls with arbitrary arguments, driver statuses and driver readings. -/
inductive Reachable : PState → Prop where
  | init : Reachable pinit
  | ofSetPressure {s ch p st} : Reachable s → Reachable (setPressure s ch p st).state
  | ofGetPressure {s ch st r} : Reachable s → Reachable (getPressure s ch st r).state
  | ofGetSensorData {s ch st r} : Reachable s → Reachable (getSensorData s ch st r).state
  | ofSetPressureBulk {s ps st} : Reachable s → Reachable (setPressureBulk s ps st).state
  | ofAddSensor {s ch ty res st} : Reachable s → Reachable (addSensor s ch ty res st).state
  | ofLoadCallibration {s pe c} : Reachable s → Reachable (loadCallibration s pe c).state
  | ofPerformCallibration {s f st} : Reachable s → Reachable (performCallibration s f st).state
  | ofStartRemote {s st} : Reachable s → Reachable (startRemote s st).state
  | ofStopRemote {s st} : Reachable s → Reachable (stopRemote s st).state
  | ofClose {s st1 st2} : Reachable s → Reachable (close s st1 st2).state
  | ofRemoteGetData {s ch st p q} : Reachable s → Reachable (remoteGetData s ch st p q).state
  | ofRemoteSetTarget {s ch t st} : Reachable s → Reachable (remoteSetTarget s ch t st).state
  | ofRemoteAddPID {s cp cs P I r st} :
      Reachable s → Reachable (remoteAddPID s cp cs P I r st).state
  | ofRemotePausePID {s ch st} : Reachable s → Reachable (remotePausePID s ch st).state
  | ofRemoteStartPID {s ch st} : Reachable s → Reachable (remoteStartPID s ch st).state
  | ofRemoteResetPID {s ch st} : Reachable s → Reachable (remoteResetPID s ch st).state
  | ofRemoteChangePID {s ch P I st} :
      Reachable s → Reachable (remoteChangePID s ch P I st).state

/-- Structural invariant of a Pelve object: the PID bookkeeping lists keep
their four slots, and outside remote mode every PID slot is empty (the
constructor starts that way and stopRemote resets them before clearing the
flag, while a PID can only be configured inside remote mode). -/
def GoodState (s : PState) : Prop :=
  s.confPIDs.length = 4 ∧ s.runningPIDs.length = 4 ∧
    (s.insideRemote = false → s.confPIDs = [none, none, none, none])

/-! ## MUXelve: the valve controller (elvemux.py) -/

/-- The valve-driver stub of the idempotence property: current reported
position plus a count of move commands issued; a move command completes
instantly, so get_valve reports the commanded index afterwards. -/
structure MuxState where
  pos : Int
  moveCount : Nat
deriving DecidableEq

/-- MUXelve.get_valve against the stub: the driver reports the current
position (0 would mean busy; the instant-move stub is never busy). -/
def get_valve (s : MuxState) : Int := s.pos

/-- The stub effect of driver call MUX_DRI_Set_Valve: position becomes the
commanded index and one move command is counted. -/
def muxDriverMove (s : MuxState) (idx : Int) : MuxState :=
  ⟨idx, s.moveCount + 1⟩

/-- MUXelve.set_valve: validate the index, return immediately when the valve
already reports that position (no move command), otherwise issue the move and
fail when the position read back afterwards is neither the target nor the
busy sentinel 0. -/
def set_valve (s : MuxState) (valve_index : Int) : Except PyError (MuxState × Int) :=
  if ¬ (0 < valve_index ∧ valve_index < 13) then
    .error (.validationError "Choose a valve index between 1 and 12")
  else if get_valve s = valve_index then .ok (s, valve_index)
  else
    let s1 := muxDriverMove s valve_index
    if get_valve s1 ≠ valve_index ∧ get_valve s1 ≠ 0 then
      .error (.deviceError "Failed to set MUX to correct location")
    else .ok (s1, valve_index)

/-! ## protocols.py: pacing, injection, sweep -/

/-- What the bottom of one acquisition tick does to pace the loop. -/
inductive PaceAction where
  | sleep (duration : ℚ)
  | warnMaxRate
deriving DecidableEq

/-- The tick-pacing decision exactly as written at the bottom of the
acquireData / acquireDataCont loop bodies: compare startTime - time.time()
against the per-tick budget breakTime and sleep the full breakTime when the
comparison holds, otherwise warn about the achieved rate. `now` is the value
of the time.time() call in the comparison. -/
def tickPacing (startTime now breakTime : ℚ) : PaceAction :=
  if startTime - now < breakTime then .sleep breakTime
  else .warnMaxRate

/-- Modelled from the spec: the claimed pacing — sleep exactly the remainder
of the budget when the measured tick duration is under budget, otherwise warn
instead of sleeping. Stated only for comparison with tickPacing. -/
def tickPacingClaimed (delta breakTime : ℚ) : PaceAction :=
  if delta < breakTime then .sleep (breakTime - delta)
  else .warnMaxRate

/-- The injectVolume accumulation loop for a constant flow reading, with an
explicit fuel bound: while the injected volume is below the target, one tick
adds flow * (loopTime / 60). Returns the final accumulated volume, or none
when the fuel ran out before the loop exited. -/
def injectLoopFuel (flow loopTime volume : ℚ) : Nat → ℚ → Option ℚ
  | 0, _ => none
  | fuel + 1, acc =>
    if acc < volume then injectLoopFuel flow loopTime volume fuel (acc + flow * (loopTime / 60))
    else some acc

/-- The externally visible side effects of injectVolume. -/
inductive InjectAction where
  | setPressureCall (channel : Int) (value : ℚ)
  | setTargetCall (channel : Int) (value : ℚ)
  | setValveCall (channel : Int)
deriving DecidableEq

/-- The driver actions injectVolume performs before its accumulation loop:
arm the selected drive (fixed pressure, or a remote flow target), then open
the valve path to the injection channel. -/
def injectPre (pressure flow_rate : Option ℚ)
    (pressure_channel flowrate_sensor_channel inject_valve_channel : Int) :
    List InjectAction :=
  (match pressure with
   | some p => [.setPressureCall pressure_channel p]
   | none =>
     match flow_rate with
     | some f => [.setTargetCall flowrate_sensor_channel f]
     | none => []) ++ [.setValveCall inject_valve_channel]

/-- The driver actions injectVolume performs after its loop exits: switch to
the stop valve when one is supplied, else zero the pressure or the flow
target depending on which was driving (or nothing when neither was). -/
def injectPost (pressure flow_rate : Option ℚ) (stop_valve_channel : Option Int)
    (pressure_channel flowrate_sensor_channel : Int) : List InjectAction :=
  match stop_valve_channel with
  | some sv => [.setValveCall sv]
  | none =>
    match pressure with
    | some _ => [.setPressureCall pressure_channel 0]
    | none =>
      match flow_rate with
      | some _ => [.setTargetCall flowrate_sensor_channel 0]
      | none => []

/-- protocols.injectVolume for a flow accessor returning the constant `flow`:
reject conflicting pressure and flow-rate arguments, perform the pre-loop
actions, run the accumulation loop, then the post-loop actions. Returns the
action list and final volume, or none when the given fuel did not let the
loop finish. -/
def injectVolumeRun (pressure flow_rate : Option ℚ) (stop_valve_channel : Option Int)
    (pressure_channel flowrate_sensor_channel inject_valve_channel : Int)
    (flow volume pollrate : ℚ) (fuel : Nat) :
    Except PyError (Option (List InjectAction × ℚ)) :=
  if pressure.isSome ∧ flow_rate.isSome then
    .error (.configError "Either set fixed pressure or fixed flow. Not both")
  else
    match injectLoopFuel flow (1 / pollrate) volume fuel 0 with
    | none => .ok none
    | some v =>
      .ok (some
        (injectPre pressure flow_rate pressure_channel flowrate_sensor_channel
            inject_valve_channel
          ++ injectPost pressure flow_rate stop_valve_channel pressure_channel
              flowrate_sensor_channel, v))

/-- protocols.pressureSweep with the per-setpoint acquisition abstracted as
`acquire`: the result accumulator starts unbound and is first assigned on
loop iteration i = 0, so an empty setpoint list reaches the final
return-result statement with the local still unbound. -/
def pressureSweep {α : Type} (pressures : List ℚ) (acquire : ℚ → List α)
    (endAtZero : Bool) : Except PyError (List α) :=
  match pressures.foldl
      (fun acc p =>
        match acc with
        | none => some (acquire p)
        | some r => some (r ++ acquire p))
      (none : Option (List α)) with
  | none => .error (.unboundLocalError "result")
  | some r => .ok r

/-! ## Helper lemmas: state effects of each Pelve operation -/

theorem setPressure_state_eq (s : PState) (ch : Int) (p : ℚ) (st : Int) :
    (setPressure s ch p st).state = s := by
  unfold setPressure
  repeat' split
  all_goals rfl

theorem getPressure_state_eq (s : PState) (ch st : Int) (r : ℚ) :
    (getPressure s ch st r).state = s := by
  unfold getPressure
  repeat' split
  all_goals rfl

theorem getSensorData_state_eq (s : PState) (ch st : Int) (r : ℚ) :
    (getSensorData s ch st r).state = s := by
  unfold getSensorData
  repeat' split
  all_goals rfl

theorem setPressureBulk_state_eq (s : PState) (ps : List ℚ) (st : Int) :
    (setPressureBulk s ps st).state = s := by
  unfold setPressureBulk
  repeat' split
  all_goals rfl

theorem addSensor_state_eq (s : PState) (ch ty res st : Int) :
    (addSensor s ch ty res st).state = s := by
  unfold addSensor
  repeat' split
  all_goals rfl

theorem remoteGetData_state_eq (s : PState) (ch st : Int) (p q : ℚ) :
    (remoteGetData s ch st p q).state = s := by
  unfold remoteGetData
  repeat' split
  all_goals rfl

theorem remoteSetTarget_state_eq (s : PState) (ch : Int) (t : ℚ) (st : Int) :
    (remoteSetTarget s ch t st).state = s := by
  unfold remoteSetTarget
  repeat' split
  all_goals rfl

theorem remoteResetPID_state_eq (s : PState) (ch st : Int) :
    (remoteResetPID s ch st).state = s := by
  unfold remoteResetPID
  repeat' split
  all_goals rfl

theorem remotePausePID_state_eq (s : PState) (ch st : Int) :
    (remotePausePID s ch st).state = (remoteStartstopPID s ch false st).state := by
  unfold remotePausePID
  rcases h : remoteStartstopPID s ch false st with ⟨t, s1, o⟩
  cases o <;> rfl

theorem remoteStartPID_state_eq (s : PState) (ch st : Int) :
    (remoteStartPID s ch st).state = (remoteStartstopPID s ch true st).state := by
  unfold remoteStartPID
  rcases h : remoteStartstopPID s ch true st with ⟨t, s1, o⟩
  cases o <;> rfl

theorem goodState_pinit : GoodState pinit :=
  ⟨rfl, rfl, fun _ => rfl⟩

theorem loadCallibration_good {s : PState} (pe : Bool) (c : List ℚ) (h : GoodState s) :
    GoodState (loadCallibration s pe c).state := by
  unfold loadCallibration
  repeat' split
  all_goals exact h

theorem performCallibration_good {s : PState} (f : List ℚ) (st : Int) (h : GoodState s) :
    GoodState (performCallibration s f st).state := by
  unfold performCallibration
  split
  · exact h
  · exact h

theorem startRemote_good {s : PState} (st : Int) (h : GoodState s) :
    GoodState (startRemote s st).state := by
  unfold startRemote
  repeat' split
  · exact h
  · exact h
  · exact h
  · exact ⟨h.1, h.2.1, fun hh => by simp at hh⟩

theorem stopRemote_good {s : PState} (st : Int) (h : GoodState s) :
    GoodState (stopRemote s st).state := by
  unfold stopRemote
  repeat' split
  · exact h
  · exact h
  · exact ⟨rfl, rfl, fun _ => rfl⟩

theorem close_good {s : PState} (st1 st2 : Int) (h : GoodState s) :
    GoodState (close s st1 st2).state := by
  unfold close
  split
  · exact stopRemote_good st1 h
  · exact h

theorem remoteAddPID_good {s : PState} (cp cs : Int) (P I : ℚ) (r : Bool) (st : Int)
    (h : GoodState s) : GoodState (remoteAddPID s cp cs P I r st).state := by
  unfold remoteAddPID
  split
  · exact h
  · rename_i hrem
    rw [not_not] at hrem
    split
    · exact h
    · split
      · exact h
      · split
        · exact h
        · split
          · dsimp only
            split
            · exact ⟨by simpa using h.1, by simpa using h.2.1, fun hh => by simp [hrem] at hh⟩
            · exact ⟨by simpa using h.1, h.2.1, fun hh => by simp [hrem] at hh⟩
          · exact h

theorem remoteStartstopPID_good {s : PState} (ch : Int) (r : Bool) (st : Int)
    (h : GoodState s) : GoodState (remoteStartstopPID s ch r st).state := by
  unfold remoteStartstopPID
  split
  · exact h
  · split
    · exact h
    · exact h
    · split
      · exact ⟨h.1, by simpa using h.2.1, h.2.2⟩
      · exact h

theorem remoteChangePID_good {s : PState} (ch : Int) (P I : ℚ) (st : Int)
    (h : GoodState s) : GoodState (remoteChangePID s ch P I st).state := by
  unfold remoteChangePID
  split
  · exact h
  · split
    · exact h
    · exact h
    · rename_i c heq
      split
      · exact h
      · refine ⟨by simpa using h.1, h.2.1, fun hh => ?_⟩
        exfalso
        rw [h.2.2 hh] at heq
        have hmem := List.get?_mem heq
        simp at hmem

theorem reachable_good {s : PState} (h : Reachable s) : GoodState s := by
  induction h with
  | init => exact goodState_pinit
  | ofSetPressure _ ih => rw [setPressure_state_eq]; exact ih
  | ofGetPressure _ ih => rw [getPressure_state_eq]; exact ih
  | ofGetSensorData _ ih => rw [getSensorData_state_eq]; exact ih
  | ofSetPressureBulk _ ih => rw [setPressureBulk_state_eq]; exact ih
  | ofAddSensor _ ih => rw [addSensor_state_eq]; exact ih
  | ofLoadCallibration _ ih => exact loadCallibration_good _ _ ih
  | ofPerformCallibration _ ih => exact performCallibration_good _ _ ih
  | ofStartRemote _ ih => exact startRemote_good _ ih
  | ofStopRemote _ ih => exact stopRemote_good _ ih
  | ofClose _ ih => exact close_good _ _ ih
  | ofRemoteGetData _ ih => rw [remoteGetData_state_eq]; exact ih
  | ofRemoteSetTarget _ ih => rw [remoteSetTarget_state_eq]; exact ih
  | ofRemoteAddPID _ ih => exact remoteAddPID_good _ _ _ _ _ _ ih
  | ofRemotePausePID _ ih => rw [remotePausePID_state_eq]; exact remoteStartstopPID_good _ _ _ ih
  | ofRemoteStartPID _ ih => rw [remoteStartPID_state_eq]; exact remoteStartstopPID_good _ _ _ ih
  | ofRemoteResetPID _ ih => rw [remoteResetPID_state_eq]; exact ih
  | ofRemoteChangePID _ ih => exact remoteChangePID_good _ _ _ _ ih

/-! ## Shared helper lemmas about raiseEFerror and PID lookups -/

theorem raiseEFerror_ok_iff (st : Int) (a : String) : raiseEFerror st a = .ok () ↔ st = 0 := by
  constructor
  · intro hh
    by_contra hne
    unfold raiseEFerror at hh
    rw [if_neg hne] at hh
    cases hl : ERRORCODES.lookup st.natAbs <;> rw [hl] at hh <;> cases hh
  · intro hh
    simp [raiseEFerror, hh]

theorem raiseEFerror_ne_ok (st : Int) (a : String) (h : st ≠ 0) :
    ∃ msg, raiseEFerror st a = .error (.deviceError msg) := by
  unfold raiseEFerror
  rw [if_neg h]
  cases hl : ERRORCODES.lookup st.natAbs <;> exact ⟨_, rfl⟩

/-- Evaluate whether an operation outcome is the InvalidState failure. -/
def outIsInvalidState {α : Type} (o : Except PyError α) : Bool :=
  match o with
  | .error (.invalidState _) => true
  | _ => false

theorem startstop_noconf (s : PState) (hconf : s.confPIDs = [none, none, none, none])
    (ch : Int) (run : Bool) (st : Int) (h1 : 1 ≤ ch) (h3 : ch ≤ 3) :
    remoteStartstopPID s ch run st = ⟨[], s, .error (.configError "No PID setup in this channel")⟩ := by
  unfold remoteStartstopPID
  rw [hconf]
  interval_cases ch
  all_goals rfl

theorem startstop_ch4 (s : PState) (hconf : s.confPIDs = [none, none, none, none])
    (run : Bool) (st : Int) :
    remoteStartstopPID s 4 run st = ⟨[], s, .error .indexError⟩ := by
  unfold remoteStartstopPID
  rw [hconf]
  rfl

/-! ## C4: ErrorSignaling.check -/

/-- C4: ErrorSignaling.check(code, action): code 0 returns successfully with no
effect; every non-zero code fails with a DeviceError whose message contains
the action description and the raw code, plus the fixed code table reason
when the absolute value of the code is a known key, and the unspecified
reason otherwise. -/
theorem raiseEFerror_spec (code : Int) (action : String) :
    (code = 0 → raiseEFerror code action = .ok ()) ∧
    (code ≠ 0 → ∃ msg, raiseEFerror code action = .error (.deviceError msg) ∧
      strContains msg action ∧ strContains msg (toString code) ∧
      (match ERRORCODES.lookup code.natAbs with
       | some reason => strContains msg reason
       | none => strContains msg "not specified further")) := by
  constructor
  · intro h
    simp [raiseEFerror, h]
  · intro h
    unfold raiseEFerror
    rw [if_neg h]
    cases hl : ERRORCODES.lookup code.natAbs with
    | some reason =>
      refine ⟨_, rfl, ?_, ?_, ?_⟩
      · exact strContains_append_left _ _ _ (strContains_append_left _ _ _
          (strContains_append_left _ _ _ (strContains_head action _)))
      · exact strContains_append_left _ _ _ (strContains_append_left _ _ _
          (strContains_append_right _ _ _ (strContains_refl _)))
      · exact strContains_append_right _ _ _ (strContains_refl _)
    | none =>
      refine ⟨_, rfl, ?_, ?_, ?_⟩
      · exact strContains_append_left _ _ _ (strContains_append_left _ _ _
          (strContains_head action _))
      · exact strContains_append_left _ _ _ (strContains_append_right _ _ _
          (strContains_refl _))
      · exact strContains_append_right _ _ _ ⟨" (".data, ")".data, by decide⟩

theorem raiseEFerror_spec_witness :
    raiseEFerror 0 "X" = .ok () ∧
    (∃ msg, raiseEFerror 8000 "X" = .error (.deviceError msg) ∧
      strContains msg "X" ∧ strContains msg (toString (8000 : Int)) ∧
      strContains msg "No Digital Sensor found") := by
  constructor
  · exact (raiseEFerror_spec 0 "X").1 rfl
  · exact (raiseEFerror_spec 8000 "X").2 (by decide)

/-! ## C1: direct-mode operations while Remote-Mode is true -/

/-- A 1000-entry calibration table for concrete states. -/
def calibTable : List ℚ := List.replicate 1000 0

/-- A Pelve state with remote mode active and no PID configured, as produced
by loadCallibration followed by a successful startRemote. -/
def remoteDemo : PState :=
  { insideRemote := true
  , confPIDs := [none, none, none, none]
  , runningPIDs := [false, false, false, false]
  , calib := some calibTable }

/-- C1 (amended): while Remote-Mode is true, setPressure, getPressure,
getSensorData, addSensor, performCallibration and setPressureBulk fail with
InvalidState before any driver call, leaving the state untouched, for every
channel and argument value; loadCallibration, by contrast, performs no
Remote-Mode check (see the counterexample theorem). -/
theorem directOps_invalidState_in_remote (s : PState) (h : s.insideRemote = true)
    (ch ty res st : Int) (p r : ℚ) (ps f : List ℚ) :
    setPressure s ch p st
      = ⟨[], s, .error (.invalidState "Remote loop is running; only inside loop functions allowed!")⟩ ∧
    getPressure s ch st r
      = ⟨[], s, .error (.invalidState "Remote loop is running; only inside loop functions allowed!")⟩ ∧
    getSensorData s ch st r
      = ⟨[], s, .error (.invalidState "Remote loop is running; only inside loop functions allowed!")⟩ ∧
    addSensor s ch ty res st
      = ⟨[], s, .error (.invalidState "Remote loop is running; only inside loop functions allowed!")⟩ ∧
    performCallibration s f st
      = ⟨[], s, .error (.invalidState "Remote loop is running; only inside loop functions allowed!")⟩ ∧
    setPressureBulk s ps st
      = ⟨[], s, .error (.invalidState "Remote loop is running; only inside loop functions allowed!")⟩ := by
  refine ⟨?_, ?_, ?_, ?_, ?_, ?_⟩
  · simp [setPressure, h]
  · simp [getPressure, h]
  · simp [getSensorData, h]
  · simp [addSensor, h]
  · simp [performCallibration, h]
  · simp [setPressureBulk, h]

theorem directOps_invalidState_in_remote_witness :
    setPressure remoteDemo 1 5 0
      = ⟨[], remoteDemo, .error (.invalidState "Remote loop is running; only inside loop functions allowed!")⟩ ∧
    getPressure remoteDemo 1 0 0
      = ⟨[], remoteDemo, .error (.invalidState "Remote loop is running; only inside loop functions allowed!")⟩ ∧
    getSensorData remoteDemo 1 0 0
      = ⟨[], remoteDemo, .error (.invalidState "Remote loop is running; only inside loop functions allowed!")⟩ ∧
    addSensor remoteDemo 1 4 7 0
      = ⟨[], remoteDemo, .error (.invalidState "Remote loop is running; only inside loop functions allowed!")⟩ ∧
    performCallibration remoteDemo calibTable 0
      = ⟨[], remoteDemo, .error (.invalidState "Remote loop is running; only inside loop functions allowed!")⟩ ∧
    setPressureBulk remoteDemo [1, 2, 3, 4] 0
      = ⟨[], remoteDemo, .error (.invalidState "Remote loop is running; only inside loop functions allowed!")⟩ :=
  directOps_invalidState_in_remote remoteDemo rfl 1 4 7 0 5 0 [1, 2, 3, 4] calibTable

/-- C1 counterexample: loadCallibration invoked while Remote-Mode is true does
not fail with InvalidState — it performs no Remote-Mode check at all and
succeeds, so the claim as stated is false for loadCallibration. -/
theorem loadCallibration_no_remote_gate :
    remoteDemo.insideRemote = true ∧
    loadCallibration remoteDemo true calibTable
      = ⟨[], { remoteDemo with calib := some calibTable }, .ok ()⟩ ∧
    outIsInvalidState (loadCallibration remoteDemo true calibTable).out = false := by
  have hlen : calibTable.length = 1000 := by
    unfold calibTable
    exact List.length_replicate 1000 0
  have hload : loadCalibrationFile calibTable = .ok calibTable := by
    unfold loadCalibrationFile
    rw [hlen]
    simp
  refine ⟨rfl, ?_, ?_⟩
  · simp [loadCallibration, hload]
  · simp [loadCallibration, hload, outIsInvalidState]

/-! ## C2: remote-scoped operations while Remote-Mode is false -/

/-- C2 (amended): whenever Remote-Mode is false on a reachable session state,
remoteGetData, remoteSetTarget and remoteAddPID fail with InvalidState; the
remaining PID management operations (remotePausePID, remoteStartPID,
remoteResetPID, remoteChangePID) perform no Remote-Mode check and instead
fail with ConfigError on channels 1..3 — no PID configuration can exist
outside Remote-Mode — and with IndexError on channel 4. -/
theorem remoteOps_nonremote_failures (s : PState) (hr : Reachable s)
    (h : s.insideRemote = false) (ch st : Int) (t pr sr P I : ℚ) (run : Bool) :
    (remoteGetData s ch st pr sr).out
      = .error (.invalidState "Remote loop is not running, use regular getPressure/getSensorData functions") ∧
    (remoteSetTarget s ch t st).out
      = .error (.invalidState "Remote loop is not running, start it firts to use PID-like processes.") ∧
    (remoteAddPID s ch ch P I run st).out
      = .error (.invalidState "PID can only be setup if remote loop is running") ∧
    (1 ≤ ch → ch ≤ 3 →
      (remotePausePID s ch st).out = .error (.configError "No PID setup in this channel") ∧
      (remoteStartPID s ch st).out = .error (.configError "No PID setup in this channel") ∧
      (remoteResetPID s ch st).out = .error (.configError "No PID setup in this channel") ∧
      (remoteChangePID s ch P I st).out = .error (.configError "No PID setup in this channel")) ∧
    ((remotePausePID s 4 st).out = .error .indexError ∧
      (remoteStartPID s 4 st).out = .error .indexError ∧
      (remoteResetPID s 4 st).out = .error .indexError ∧
      (remoteChangePID s 4 P I st).out = .error .indexError) := by
  have hconf : s.confPIDs = [none, none, none, none] := (reachable_good hr).2.2 h
  refine ⟨?_, ?_, ?_, ?_, ?_, ?_, ?_, ?_⟩
  · simp [remoteGetData, h]
  · simp [remoteSetTarget, h]
  · simp [remoteAddPID, h]
  · intro h1 h3
    refine ⟨?_, ?_, ?_, ?_⟩
    · unfold remotePausePID
      rw [startstop_noconf s hconf ch false st h1 h3]
    · unfold remoteStartPID
      rw [startstop_noconf s hconf ch true st h1 h3]
    · unfold remoteResetPID
      rw [hconf]
      interval_cases ch
      all_goals rfl
    · unfold remoteChangePID
      rw [hconf]
      interval_cases ch
      all_goals rfl
  · unfold remotePausePID
    rw [startstop_ch4 s hconf false st]
  · unfold remoteStartPID
    rw [startstop_ch4 s hconf true st]
  · unfold remoteResetPID
    rw [hconf]
    rfl
  · unfold remoteChangePID
    rw [hconf]
    rfl

theorem remoteOps_nonremote_failures_witness :
    (remoteGetData pinit 2 0 0 0).out
      = .error (.invalidState "Remote loop is not running, use regular getPressure/getSensorData functions") ∧
    (remoteSetTarget pinit 2 1 0).out
      = .error (.invalidState "Remote loop is not running, start it firts to use PID-like processes.") ∧
    (remoteAddPID pinit 2 2 1 1 true 0).out
      = .error (.invalidState "PID can only be setup if remote loop is running") ∧
    (remotePausePID pinit 2 0).out = .error (.configError "No PID setup in this channel") ∧
    (remotePausePID pinit 4 0).out = .error .indexError := by
  have hmain := remoteOps_nonremote_failures pinit .init rfl 2 0 1 0 0 1 1 true
  exact ⟨hmain.1, hmain.2.1, hmain.2.2.1,
    (hmain.2.2.2.1 (by decide) (by decide)).1, hmain.2.2.2.2.1⟩

/-- C2 counterexample: remotePausePID invoked on a fresh session (Remote-Mode
false) fails with ConfigError, not with InvalidState as the claim states. -/
theorem remotePausePID_wrong_error_kind :
    pinit.insideRemote = false ∧
    (remotePausePID pinit 1 0).out = .error (.configError "No PID setup in this channel") ∧
    outIsInvalidState (remotePausePID pinit 1 0).out = false := by
  exact ⟨rfl, rfl, rfl⟩

/-! ## C3: the per-channel PID sub-state -/

/-- The remoteDemo state after a successful remoteAddPID(1, 1, 1/2, 1/3,
run = true): gains stored in slot 1, running flag set. -/
def demoAfterAdd : PState :=
  { insideRemote := true
  , confPIDs := [none, some ⟨1/2, 1/3⟩, none, none]
  , runningPIDs := [false, true, false, false]
  , calib := some calibTable }

/-- C3: the claim holds on channels 1..3 (no prior addPID gives ConfigError;
a successful addPID(ch, run = true) stores Configuration {P, I} and Running
reads true; pausePID then clears Running without altering Configuration),
but on the equally valid channel 4 every PID operation raises IndexError:
the four-slot bookkeeping lists are indexed by the raw channel number 1..4,
so channel 4 falls off the end — addPID(4, ...) even makes the driver call
first and then crashes while storing the configuration. -/
theorem pid_substate_channel4_bug :
    (remotePausePID remoteDemo 1 0).out = .error (.configError "No PID setup in this channel") ∧
    (remoteStartPID remoteDemo 2 0).out = .error (.configError "No PID setup in this channel") ∧
    (remoteResetPID remoteDemo 3 0).out = .error (.configError "No PID setup in this channel") ∧
    (remoteChangePID remoteDemo 1 1 1 0).out = .error (.configError "No PID setup in this channel") ∧
    channelCheck 4 = .ok 4 ∧
    remoteAddPID remoteDemo 4 1 (1/2) (1/3) true 0
      = ⟨[.pidAddRemote], remoteDemo, .error .indexError⟩ ∧
    (remotePausePID remoteDemo 4 0).out = .error .indexError ∧
    (remoteStartPID remoteDemo 4 0).out = .error .indexError ∧
    (remoteResetPID remoteDemo 4 0).out = .error .indexError ∧
    (remoteChangePID remoteDemo 4 1 1 0).out = .error .indexError ∧
    remoteAddPID remoteDemo 1 1 (1/2) (1/3) true 0
      = ⟨[.pidAddRemote], demoAfterAdd, .ok ()⟩ ∧
    demoAfterAdd.confPIDs.get? 1 = some (some ⟨1/2, 1/3⟩) ∧
    demoAfterAdd.runningPIDs.get? 1 = some true ∧
    (remotePausePID demoAfterAdd 1 0).out = .ok () ∧
    (remotePausePID demoAfterAdd 1 0).state.runningPIDs.get? 1 = some false ∧
    (remotePausePID demoAfterAdd 1 0).state.confPIDs = demoAfterAdd.confPIDs := by
  refine ⟨rfl, rfl, rfl, rfl, rfl, rfl, rfl, rfl, rfl, rfl, rfl, rfl, rfl, rfl, rfl, rfl⟩

/-! ## C5: close in Open(remote) -/

theorem stopRemote_trace_in_remote (s : PState) (h : s.insideRemote = true) (st : Int) :
    (stopRemote s st).trace = [.stopRemoteMeas] := by
  cases hr : raiseEFerror st "Stopping control loop" with
  | error e => simp [stopRemote, h, hr]
  | ok u => simp [stopRemote, h, hr]

theorem close_out_eq (s : PState) (st1 st2 : Int) :
    (close s st1 st2).out = raiseEFerror st2 "Closing connection to OB1" := by
  unfold close
  split <;> rfl

/-- C5: close() in Open(remote) first attempts stopRemote (the driver stop
call always appears in the trace, whatever its status); a stop failure is
swallowed and close proceeds to destroy the driver handle; close fails, with
a DeviceError, exactly when the destruction status is non-zero — also when
the earlier stopRemote failure was swallowed. -/
theorem close_in_remote_spec (s : PState) (h : s.insideRemote = true)
    (stopStatus destroyStatus : Int) :
    (close s stopStatus destroyStatus).trace = [.stopRemoteMeas, .obDestructor] ∧
    ((close s stopStatus destroyStatus).out = .ok () ↔ destroyStatus = 0) ∧
    (destroyStatus ≠ 0 →
      ∃ msg, (close s stopStatus destroyStatus).out = .error (.deviceError msg)) := by
  refine ⟨?_, ?_, ?_⟩
  · have ht : (close s stopStatus destroyStatus).trace
        = (stopRemote s stopStatus).trace ++ [.obDestructor] := by
      unfold close
      rw [if_pos h]
    rw [ht, stopRemote_trace_in_remote s h]
    rfl
  · rw [close_out_eq]
    exact raiseEFerror_ok_iff destroyStatus "Closing connection to OB1"
  · intro hne
    rw [close_out_eq]
    exact raiseEFerror_ne_ok destroyStatus "Closing connection to OB1" hne

theorem close_in_remote_spec_witness :
    (close remoteDemo 2 5).trace = [.stopRemoteMeas, .obDestructor] ∧
    (close remoteDemo 2 5).out
      = .error (.deviceError "Closing connection to OB1 failed with errorcode 5 (not specified further)") ∧
    (close remoteDemo 2 0).out = .ok () := by
  refine ⟨(close_in_remote_spec remoteDemo rfl 2 5).1, rfl, ?_⟩
  exact (close_in_remote_spec remoteDemo rfl 2 0).2.1.mpr rfl

/-! ## C6: valve idempotence -/

/-- C6: for every valid valve index n in 1..12, set_valve(n) from a state
already reporting n is a no-op returning n with no move command issued; from
any other position, the first set_valve(n) issues exactly one move command
and the second is a no-op, so two consecutive calls issue exactly one move. -/
theorem set_valve_idempotent (s : MuxState) (n : Int) (h1 : 0 < n) (h2 : n < 13) :
    (get_valve s = n → set_valve s n = .ok (s, n)) ∧
    (get_valve s ≠ n →
      set_valve s n = .ok (⟨n, s.moveCount + 1⟩, n) ∧
      set_valve (⟨n, s.moveCount + 1⟩ : MuxState) n = .ok (⟨n, s.moveCount + 1⟩, n)) := by
  constructor
  · intro hp
    simp [set_valve, h1, h2, hp]
  · intro hp
    simp only [get_valve] at hp
    constructor
    · simp [set_valve, muxDriverMove, get_valve, h1, h2, hp]
    · simp [set_valve, get_valve, h1, h2]

theorem set_valve_idempotent_witness :
    set_valve ⟨5, 0⟩ 5 = .ok (⟨5, 0⟩, 5) ∧
    set_valve ⟨3, 0⟩ 5 = .ok (⟨5, 1⟩, 5) ∧
    set_valve ⟨5, 1⟩ 5 = .ok (⟨5, 1⟩, 5) := by
  refine ⟨(set_valve_idempotent ⟨5, 0⟩ 5 (by decide) (by decide)).1 rfl, ?_, ?_⟩
  · exact ((set_valve_idempotent ⟨3, 0⟩ 5 (by decide) (by decide)).2 (by decide)).1
  · exact ((set_valve_idempotent ⟨3, 0⟩ 5 (by decide) (by decide)).2 (by decide)).2

/-! ## C7: acquisition tick pacing -/

/-- With any non-negative tick duration and positive budget, the comparison
written in the source (startTime - time.time() < breakTime) holds, so the
loop sleeps the full budget; the warning branch is unreachable. -/
theorem tickPacing_sleep_always (startTime now breakTime : ℚ)
    (h1 : startTime ≤ now) (h2 : 0 < breakTime) :
    tickPacing startTime now breakTime = .sleep breakTime := by
  unfold tickPacing
  rw [if_pos (by linarith)]

/-- C7 (evaluating the code at the failing inputs): with budget 1/10 s, a
tick that overran the budget (ran from time 0 to time 3/10) still makes the
source sleep the full budget and emit no warning, where the claim requires a
warning and no sleep; and a fast tick (duration 1/20) makes the source sleep
the full budget 1/10, where the claim requires sleeping only the remainder
1/10 - 1/20. -/
theorem tickPacing_contradicts_claim :
    tickPacing 0 (3 / 10) (1 / 10) = .sleep (1 / 10) ∧
    tickPacingClaimed (3 / 10 - 0) (1 / 10) = .warnMaxRate ∧
    tickPacing 0 (1 / 20) (1 / 10) = .sleep (1 / 10) ∧
    tickPacingClaimed (1 / 20 - 0) (1 / 10) = .sleep (1 / 10 - 1 / 20) := by
  refine ⟨?_, ?_, ?_, ?_⟩
  · unfold tickPacing
    rw [if_pos (by norm_num)]
  · unfold tickPacingClaimed
    rw [if_neg (by norm_num)]
  · unfold tickPacing
    rw [if_pos (by norm_num)]
  · unfold tickPacingClaimed
    rw [if_pos (by norm_num)]
    norm_num

/-! ## C8: injection termination -/

theorem injectLoopFuel_exits (flow loopTime volume : ℚ)
    (hpos : 0 < flow * (loopTime / 60)) :
    ∀ (k : Nat) (acc : ℚ),
      (⌈(volume - acc) / (flow * (loopTime / 60))⌉).toNat ≤ k →
      ∃ v, injectLoopFuel flow loopTime volume (k + 1) acc = some v ∧ volume ≤ v := by
  intro k
  induction k with
  | zero =>
    intro acc hk
    have hceil : ⌈(volume - acc) / (flow * (loopTime / 60))⌉ ≤ 0 := Int.toNat_le.mp hk
    have hdiv : (volume - acc) / (flow * (loopTime / 60)) ≤ 0 := by
      have := Int.ceil_le.mp hceil
      simpa using this
    have hva : volume ≤ acc := by
      have h2 := (div_le_iff₀ hpos).mp hdiv
      rw [zero_mul] at h2
      linarith
    refine ⟨acc, ?_, hva⟩
    simp only [injectLoopFuel]
    rw [if_neg (not_lt.mpr hva)]
  | succ k ih =>
    intro acc hk
    by_cases hav : acc < volume
    · have hne : flow * (loopTime / 60) ≠ 0 := ne_of_gt hpos
      have harith : (volume - (acc + flow * (loopTime / 60))) / (flow * (loopTime / 60))
          = (volume - acc) / (flow * (loopTime / 60)) - 1 := by
        rw [sub_add_eq_sub_sub, sub_div, div_self hne]
      have hstep :
          (⌈(volume - (acc + flow * (loopTime / 60))) / (flow * (loopTime / 60))⌉).toNat ≤ k := by
        rw [harith, Int.ceil_sub_one]
        omega
      obtain ⟨v, hv, hvol⟩ := ih (acc + flow * (loopTime / 60)) hstep
      refine ⟨v, ?_, hvol⟩
      simp only [injectLoopFuel]
      rw [if_pos hav]
      exact hv
    · refine ⟨acc, ?_, le_of_not_lt hav⟩
      simp only [injectLoopFuel]
      rw [if_neg hav]

theorem injectLoop_total (flow volume pollrate : ℚ)
    (hf : 0 < flow) (hp : 0 < pollrate) :
    ∃ fuel v, injectLoopFuel flow (1 / pollrate) volume fuel 0 = some v ∧ volume ≤ v := by
  have h1 : 0 < (1 : ℚ) / pollrate := one_div_pos.mpr hp
  have h2 : 0 < (1 / pollrate) / 60 := div_pos h1 (by norm_num)
  have hpos : 0 < flow * ((1 / pollrate) / 60) := mul_pos hf h2
  obtain ⟨v, hv2, hvol⟩ := injectLoopFuel_exits flow (1 / pollrate) volume hpos
    ((⌈(volume - 0) / (flow * ((1 / pollrate) / 60))⌉).toNat) 0 le_rfl
  exact ⟨_, v, hv2, hvol⟩

/-- C8: for a flow accessor returning a constant positive flow and any
positive target volume, the injection loop adds flow * (1/pollRate)/60 per
tick while below target and terminates once the accumulated volume reaches
the target; afterwards the run switches the valve to the stop channel when
one is supplied, else zeroes the pressure or the flow target depending on
which was driving. -/
theorem injectVolume_terminates (flow volume pollrate : ℚ) (P fr : Option ℚ)
    (pc sc iv sv : Int) (hf : 0 < flow) (hv : 0 < volume) (hp : 0 < pollrate) :
    (∀ (fuel : Nat) (acc : ℚ), acc < volume →
      injectLoopFuel flow (1 / pollrate) volume (fuel + 1) acc
        = injectLoopFuel flow (1 / pollrate) volume fuel (acc + flow * ((1 / pollrate) / 60))) ∧
    (¬ (P.isSome ∧ fr.isSome) → ∃ fuel acts v,
      injectVolumeRun P fr (some sv) pc sc iv flow volume pollrate fuel = .ok (some (acts, v)) ∧
      volume ≤ v ∧ acts.getLast? = some (.setValveCall sv)) ∧
    (∀ p : ℚ, ∃ fuel v,
      injectVolumeRun (some p) none none pc sc iv flow volume pollrate fuel
        = .ok (some ([.setPressureCall pc p, .setValveCall iv, .setPressureCall pc 0], v)) ∧
      volume ≤ v) ∧
    (∀ f0 : ℚ, ∃ fuel v,
      injectVolumeRun none (some f0) none pc sc iv flow volume pollrate fuel
        = .ok (some ([.setTargetCall sc f0, .setValveCall iv, .setTargetCall sc 0], v)) ∧
      volume ≤ v) := by
  refine ⟨?_, ?_, ?_, ?_⟩
  · intro fuel acc h
    simp only [injectLoopFuel]
    rw [if_pos h]
  · intro hnb
    obtain ⟨fuel, v, hfv, hvol⟩ := injectLoop_total flow volume pollrate hf hp
    refine ⟨fuel, injectPre P fr pc sc iv ++ [.setValveCall sv], v, ?_, hvol, ?_⟩
    · unfold injectVolumeRun
      rw [if_neg hnb, hfv]
      rfl
    · exact List.getLast?_concat _
  · intro p
    obtain ⟨fuel, v, hfv, hvol⟩ := injectLoop_total flow volume pollrate hf hp
    refine ⟨fuel, v, ?_, hvol⟩
    unfold injectVolumeRun
    rw [if_neg (by simp), hfv]
    rfl
  · intro f0
    obtain ⟨fuel, v, hfv, hvol⟩ := injectLoop_total flow volume pollrate hf hp
    refine ⟨fuel, v, ?_, hvol⟩
    unfold injectVolumeRun
    rw [if_neg (by simp), hfv]
    rfl

theorem injectVolume_terminates_witness :
    (∃ fuel acts v,
      injectVolumeRun none none (some 7) 1 1 2 60 1 60 fuel = .ok (some (acts, v)) ∧
      (1 : ℚ) ≤ v ∧ acts.getLast? = some (.setValveCall 7)) ∧
    injectLoopFuel 60 (1 / 60) 1 1 0
      = injectLoopFuel 60 (1 / 60) 1 0 (0 + 60 * ((1 / 60) / 60)) := by
  constructor
  · exact (injectVolume_terminates 60 1 60 none none 1 1 2 7
      (by norm_num) (by norm_num) (by norm_num)).2.1 (by decide)
  · exact (injectVolume_terminates 60 1 60 none none 1 1 2 7
      (by norm_num) (by norm_num) (by norm_num)).1 0 0 (by norm_num)

/-! ## C9: calibration round-trip -/

/-- C9: saving any 1000-entry table and loading it back yields exactly the
same values in the original order, while loading a 999-entry file fails with
ValidationError. Python json serialisation round-trips the numeric values
exactly; the persisted file is modelled by its parsed numeric content. -/
theorem calibration_roundtrip (l : List ℚ) (h : l.length = 1000) :
    loadCalibrationFile (saveCalibration l) = .ok l ∧
    loadCalibrationFile (saveCalibration (List.replicate 999 (0 : ℚ)))
      = .error (.validationError
          "Calibrationdata in file is misformed: should be list of 1000 elements, not 999 elements") := by
  constructor
  · unfold loadCalibrationFile saveCalibration
    rw [h]
    simp
  · unfold loadCalibrationFile saveCalibration
    rw [List.length_replicate 999 0]
    rfl

theorem calibration_roundtrip_witness :
    loadCalibrationFile (saveCalibration calibTable) = .ok calibTable :=
  (calibration_roundtrip calibTable (by unfold calibTable; exact List.length_replicate 1000 0)).1

/-! ## C10: pressureSweep needs a non-empty setpoint list -/

theorem pressureSweep_foldl_some {α : Type} (acquire : ℚ → List α) :
    ∀ (ps : List ℚ) (r : List α),
      ps.foldl
        (fun acc p =>
          match acc with
          | none => some (acquire p)
          | some r => some (r ++ acquire p))
        (some r) = some (r ++ (ps.map acquire).flatten) := by
  intro ps
  induction ps with
  | nil => intro r; simp
  | cons p rest ih =>
    intro r
    simp only [List.foldl]
    rw [ih (r ++ acquire p)]
    simp [List.append_assoc]

/-- C10: pressureSweep with an empty setpoint sequence reaches the final
return statement with its result accumulator still unbound (the accumulator
is only created on the first loop iteration) and raises the unbound-local
error; any non-empty setpoint sequence returns the concatenation of the
per-setpoint acquisitions in visit order. -/
theorem pressureSweep_empty_unbound {α : Type} (acquire : ℚ → List α) (endAtZero : Bool) :
    pressureSweep [] acquire endAtZero = .error (.unboundLocalError "result") ∧
    (∀ pressures : List ℚ, pressures ≠ [] →
      pressureSweep pressures acquire endAtZero = .ok ((pressures.map acquire).flatten)) := by
  constructor
  · rfl
  · intro pressures hne
    match pressures with
    | [] => exact absurd rfl hne
    | p :: rest =>
      unfold pressureSweep
      simp only [List.foldl]
      rw [pressureSweep_foldl_some acquire rest (acquire p)]
      simp

theorem pressureSweep_empty_unbound_witness :
    pressureSweep ([] : List ℚ) (fun p => [p]) true = .error (.unboundLocalError "result") ∧
    pressureSweep [1, 2] (fun p => [p]) true = .ok (([1, 2].map (fun p => [p])).flatten) := by
  constructor
  · exact (pressureSweep_empty_unbound (fun p => [p]) true).1
  · exact (pressureSweep_empty_unbound (fun p => [p]) true).2 [1, 2] (by simp)

end Pycrofluidics
